import Mathlib

/-!
Verification development for the farm bookkeeping application: a shallow
embedding of its domain model (types.ts), event reducer (the App handlers in
the main component), aggregate engine (Dashboard, AccountRegistry,
LiabilityManager, InventoryManager computations), import/export (Settings)
and the debounced sync coordinator, together with theorems settling the
specified properties.

Modelling conventions:
- Monetary amounts are binary floating point in the source; they are embedded
  as exact rationals, the idealisation the specification itself recommends.
- Animal counts and stock quantities are embedded as integers.
- Calendar dates that are only compared (liability due dates) are embedded as
  integer day indices; the reference instant of a computation is a day index
  plus a fractional time of day, matching the source where the comparison
  bound keeps its time-of-day component. Dates that are only stored and
  displayed remain strings.
- Freshly generated identifiers (crypto.randomUUID in the source) are passed
  in as explicit parameters.
-/

/-- types.ts TransactionType. -/
inductive TransactionType where
  | INCOME
  | EXPENSE
deriving DecidableEq, Repr

/-- types.ts Category. -/
structure Category where
  id : String
  name : String
  type : TransactionType
  color : String
deriving DecidableEq, Repr

/-- types.ts AccountType. -/
inductive AccountType where
  | CHECKING
  | SAVINGS
  | CASH
  | CREDIT
deriving DecidableEq, Repr

/-- types.ts Account. -/
structure Account where
  id : String
  name : String
  type : AccountType
  initialBalance : ℚ
deriving DecidableEq, Repr

/-- types.ts Transaction. -/
structure Transaction where
  id : String
  date : String
  description : String
  amount : ℚ
  categoryId : String
  accountId : String
  type : TransactionType
deriving DecidableEq, Repr

/-- types.ts NavItemConfig. -/
structure NavItemConfig where
  id : String
  visible : Bool
deriving DecidableEq, Repr

/-- types.ts PopulationChange. -/
inductive PopulationChange where
  | BOUGHT
  | BIRTH
  | SOLD
  | DEATH
deriving DecidableEq, Repr

/-- types.ts AnimalSpecies. -/
structure AnimalSpecies where
  id : String
  name : String
  tag : String
  breed : String
  count : ℤ
  estimatedValue : ℚ
deriving DecidableEq, Repr

/-- types.ts AnimalLog. -/
structure AnimalLog where
  id : String
  speciesId : String
  date : String
  type : PopulationChange
  quantity : ℤ
  note : String
  valueAtTime : ℚ
deriving DecidableEq, Repr

/-- types.ts MovementType. -/
inductive MovementType where
  | IN
  | OUT
deriving DecidableEq, Repr

/-- types.ts AssetTerm. -/
inductive AssetTerm where
  | SHORT_TERM
  | LONG_TERM
deriving DecidableEq, Repr

/-- types.ts InventoryItem. -/
structure InventoryItem where
  id : String
  name : String
  sku : String
  description : String
  quantity : ℤ
  unitCost : ℚ
  assetTerm : AssetTerm
deriving DecidableEq, Repr

/-- types.ts InventoryMovement. -/
structure InventoryMovement where
  id : String
  itemId : String
  type : MovementType
  quantity : ℤ
  note : String
  date : String
  unitCostAtTime : ℚ
deriving DecidableEq, Repr

/-- types.ts AssetCategory. -/
inductive AssetCategory where
  | EQUIPMENT
  | VEHICLE
  | REAL_ESTATE
  | TECHNOLOGY
  | LIVESTOCK
  | INVENTORY
  | OTHER
deriving DecidableEq, Repr

/-- types.ts Asset. -/
structure Asset where
  id : String
  name : String
  category : AssetCategory
  purchaseDate : String
  purchasePrice : ℚ
  currentValue : ℚ
  description : String
deriving DecidableEq, Repr

/-- types.ts LiabilityCategory. -/
inductive LiabilityCategory where
  | LOAN
  | CREDIT_CARD
  | MORTGAGE
  | ACCOUNTS_PAYABLE
  | OTHER
deriving DecidableEq, Repr

/-- types.ts PaymentFrequency. -/
inductive PaymentFrequency where
  | MONTHLY
  | YEARLY
  | ONE_TIME
deriving DecidableEq, Repr

/-- types.ts Liability. The optional dueDate string is embedded as an optional
integer day index (none covers both an absent field and the empty string,
which the source treats as falsy); installmentAmount and paymentFrequency
are the optional fields of the source interface. -/
structure Liability where
  id : String
  name : String
  category : LiabilityCategory
  originalAmount : ℚ
  currentBalance : ℚ
  interestRate : ℚ
  dueDate : Option ℤ
  installmentAmount : Option ℚ
  paymentFrequency : Option PaymentFrequency
  description : String
deriving DecidableEq, Repr

/-- apiService.ts FarmData: the aggregate snapshot, the unit of persistence
and synchronization. -/
structure FarmData where
  transactions : List Transaction
  categories : List Category
  accounts : List Account
  animalSpecies : List AnimalSpecies
  animalLogs : List AnimalLog
  inventoryItems : List InventoryItem
  inventoryMovements : List InventoryMovement
  assets : List Asset
  liabilities : List Liability
  sidebarConfig : List NavItemConfig
  isSidebarCollapsed : Bool
deriving DecidableEq, Repr

/-- The signed-in user identity held by the App component. -/
structure User where
  name : String
  email : String
deriving DecidableEq, Repr

/-! ## Event reducer

Each handler of the main App component becomes a pure function from the
current FarmData snapshot (plus the freshly generated id) to the next one.
All handlers produce the whole next snapshot in one step, which is what the
single-threaded source does via one functional state update per key. -/

/-- A Transaction before id assignment (Omit Transaction id in the source). -/
structure TransactionInput where
  date : String
  description : String
  amount : ℚ
  categoryId : String
  accountId : String
  type : TransactionType
deriving DecidableEq, Repr

/-- Attach a generated id to a transaction input. -/
def mkTransaction (uid : String) (t : TransactionInput) : Transaction :=
  { id := uid, date := t.date, description := t.description, amount := t.amount,
    categoryId := t.categoryId, accountId := t.accountId, type := t.type }

/-- App handleAddTransaction: append the new transaction with a fresh id. -/
def handleAddTransaction (d : FarmData) (t : TransactionInput) (uid : String) : FarmData :=
  { d with transactions := d.transactions ++ [mkTransaction uid t] }

/-- The expense transaction synthesized by LiabilityManager
handleRecordPayment: dated at the payment date, described
"Payment towards: " followed by the liability name, carrying the raw
payment amount against the chosen expense category and account. -/
def paymentTransaction (L : Liability) (amount : ℚ) (pdate catId acctId uid : String) :
    Transaction :=
  { id := uid, date := pdate, description := "Payment towards: " ++ L.name,
    amount := amount, categoryId := catId, accountId := acctId,
    type := TransactionType.EXPENSE }

/-- LiabilityManager handleRecordPayment composed with the App onUpdate and
onAddTransaction callbacks: replace the liability (found by id) with a copy
whose balance is max 0 (balance - amount), and append the synthesized expense
transaction. Both updates land in the single returned snapshot. -/
def handleRecordPayment (d : FarmData) (L : Liability) (amount : ℚ)
    (pdate catId acctId uid : String) : FarmData :=
  let newBalance := max 0 (L.currentBalance - amount)
  let d1 := { d with liabilities :=
    d.liabilities.map (fun x =>
      if x.id == L.id then { L with currentBalance := newBalance } else x) }
  handleAddTransaction d1
    { date := pdate, description := "Payment towards: " ++ L.name, amount := amount,
      categoryId := catId, accountId := acctId, type := TransactionType.EXPENSE } uid

/-- An AnimalLog before id assignment (Omit AnimalLog id in the source). -/
structure AnimalLogInput where
  speciesId : String
  date : String
  type : PopulationChange
  quantity : ℤ
  note : String
  valueAtTime : ℚ
deriving DecidableEq, Repr

/-- Attach a generated id to an animal log input. -/
def mkAnimalLog (uid : String) (l : AnimalLogInput) : AnimalLog :=
  { id := uid, speciesId := l.speciesId, date := l.date, type := l.type,
    quantity := l.quantity, note := l.note, valueAtTime := l.valueAtTime }

/-- The per-species update mapped by App handleRecordAnimalLog: the species
matching speciesId gets count max 0 (count + changeAmount), where
changeAmount is plus the quantity for BOUGHT or BIRTH and minus the quantity
otherwise; every other species is untouched. -/
def bumpSpecies (l : AnimalLogInput) (s : AnimalSpecies) : AnimalSpecies :=
  let isAdd := l.type == PopulationChange.BOUGHT || l.type == PopulationChange.BIRTH
  let changeAmount : ℤ := if isAdd then l.quantity else -l.quantity
  if s.id == l.speciesId then { s with count := max 0 (s.count + changeAmount) } else s

/-- App handleRecordAnimalLog: append the log unconditionally, and bump the
count of the species matching speciesId by plus or minus the quantity,
floored at zero. A speciesId matching no species leaves the species list
unchanged (the map is the identity) while the log is still appended. -/
def handleRecordAnimalLog (d : FarmData) (l : AnimalLogInput) (uid : String) : FarmData :=
  { d with
    animalLogs := d.animalLogs ++ [mkAnimalLog uid l],
    animalSpecies := d.animalSpecies.map (bumpSpecies l) }

/-- An AnimalSpecies creation payload: Omit AnimalSpecies id count in the
source, so the public creation interface carries no count field at all. -/
structure AnimalSpeciesInput where
  name : String
  tag : String
  breed : String
  estimatedValue : ℚ
deriving DecidableEq, Repr

/-- App onAddSpecies (the /animals route): append the new species with a
fresh id and count fixed to 0. -/
def onAddSpecies (d : FarmData) (s : AnimalSpeciesInput) (uid : String) : FarmData :=
  { d with animalSpecies := d.animalSpecies ++
    [{ id := uid, name := s.name, tag := s.tag, breed := s.breed, count := 0,
       estimatedValue := s.estimatedValue }] }

/-- An InventoryItem creation payload: Omit InventoryItem id quantity in the
source, so the public creation interface carries no quantity field at all. -/
structure InventoryItemInput where
  name : String
  sku : String
  description : String
  unitCost : ℚ
  assetTerm : AssetTerm
deriving DecidableEq, Repr

/-- App onAddItem (the /inventory route): append the new item with a fresh id
and quantity fixed to 0. -/
def onAddItem (d : FarmData) (i : InventoryItemInput) (uid : String) : FarmData :=
  { d with inventoryItems := d.inventoryItems ++
    [{ id := uid, name := i.name, sku := i.sku, description := i.description,
       quantity := 0, unitCost := i.unitCost, assetTerm := i.assetTerm }] }

/-- An InventoryMovement before id assignment (Omit InventoryMovement id). -/
structure InventoryMovementInput where
  itemId : String
  type : MovementType
  quantity : ℤ
  note : String
  date : String
  unitCostAtTime : ℚ
deriving DecidableEq, Repr

/-- Attach a generated id to a movement input. -/
def mkMovement (uid : String) (m : InventoryMovementInput) : InventoryMovement :=
  { id := uid, itemId := m.itemId, type := m.type, quantity := m.quantity,
    note := m.note, date := m.date, unitCostAtTime := m.unitCostAtTime }

/-- App onRecordMovement (the /inventory route): append the movement with a
fresh id. This is the complete effect in the source: no inventory item is
touched by this handler. -/
def onRecordMovement (d : FarmData) (m : InventoryMovementInput) (uid : String) : FarmData :=
  { d with inventoryMovements := d.inventoryMovements ++ [mkMovement uid m] }

/-- InventoryManager handleRecordMovement composed with the App callback:
require the referenced item to exist (otherwise do nothing), stamp the
movement with the item's current unit cost, and hand it to onRecordMovement.
No call to onUpdateItem occurs, so item quantities are left as they were. -/
def handleRecordMovement (d : FarmData) (m : InventoryMovementInput) (uid : String) : FarmData :=
  match d.inventoryItems.find? (fun i => i.id == m.itemId) with
  | none => d
  | some item => onRecordMovement d { m with unitCostAtTime := item.unitCost } uid

/-! ## Aggregate engine -/

/-- AccountRegistry accountBalances, for one account: start from the initial
balance and walk the transactions filtered to this account, adding income
amounts and subtracting expense amounts. -/
def accountBalance (acc : Account) (ts : List Transaction) : ℚ :=
  (ts.filter (fun t => t.accountId == acc.id)).foldl
    (fun b t => if t.type == TransactionType.INCOME then b + t.amount else b - t.amount)
    acc.initialBalance

/-- The balance formula as the specification words it: initial balance plus
the sum of income amounts on the account minus the sum of expense amounts on
the account. Stated separately so the derived computation can be compared
against it. -/
def specAccountBalance (acc : Account) (ts : List Transaction) : ℚ :=
  acc.initialBalance
    + ((ts.filter (fun t => t.accountId == acc.id && t.type == TransactionType.INCOME)).map
        (fun t => t.amount)).sum
    - ((ts.filter (fun t => t.accountId == acc.id && t.type == TransactionType.EXPENSE)).map
        (fun t => t.amount)).sum

/-- Dashboard summary reduce: total income and total expense of a transaction
list (every non-income transaction counts as expense, as in the source). -/
def incomeExpenseSummary (ts : List Transaction) : ℚ × ℚ :=
  ts.foldl
    (fun acc t =>
      if t.type == TransactionType.INCOME then (acc.1 + t.amount, acc.2)
      else (acc.1, acc.2 + t.amount))
    (0, 0)

/-- Dashboard performanceMetrics grossMargin. -/
def grossMargin (revenue expenses : ℚ) : ℚ :=
  if 0 < revenue then ((revenue - expenses) / revenue) * 100 else 0

/-- Dashboard performanceMetrics breakevenProgress. -/
def breakevenProgress (revenue expenses : ℚ) : ℚ :=
  if 0 < expenses then min (revenue / expenses * 100) 100
  else if 0 < revenue then 100 else 0

/-- Dashboard performanceMetrics gapToBreakeven. -/
def gapToBreakeven (revenue expenses : ℚ) : ℚ :=
  max 0 (expenses - revenue)

/-- The performance metrics of a transaction list, as the Dashboard derives
them from its summary: gross margin, breakeven progress and gap to
breakeven. -/
def performanceMetrics (ts : List Transaction) : ℚ × ℚ × ℚ :=
  let s := incomeExpenseSummary ts
  (grossMargin s.1 s.2, breakevenProgress s.1 s.2, gapToBreakeven s.1 s.2)

/-- The due-soon filter shared by the Dashboard debtSummary and the
LiabilityManager stats: a liability is upcoming when it has a due date, its
balance is positive, and the due date lies at or before the bound thirty
days after the as-of day. The bound keeps the time of day tau of the moment
of computation (the source builds it from a fresh Date and only shifts the
day), so it is asOfDay + 30 + tau with 0 <= tau < 1 in day units; the due
date itself is parsed from a date-only string, hence sits at midnight. -/
def upcomingPred (asOfDay : ℤ) (tau : ℚ) (l : Liability) : Bool :=
  match l.dueDate with
  | none => false
  | some due =>
    decide (0 < l.currentBalance) && decide ((due : ℚ) ≤ (asOfDay : ℚ) + 30 + tau)

/-- Dashboard debtSummary upcoming list. -/
def debtUpcoming (asOfDay : ℤ) (tau : ℚ) (ls : List Liability) : List Liability :=
  ls.filter (upcomingPred asOfDay tau)

/-- The amount a single upcoming liability contributes to the due-soon total:
the installment amount capped by the balance when a positive installment
amount exists, the full balance otherwise (a zero or negative installment
amount falls through to the balance, as the source truthiness test does). -/
def dueSoonAmount (l : Liability) : ℚ :=
  match l.installmentAmount with
  | some inst => if 0 < inst then min inst l.currentBalance else l.currentBalance
  | none => l.currentBalance

/-- Dashboard debtSummary totalAmountDueSoon: reduce over the upcoming
liabilities, accumulating dueSoonAmount. -/
def totalAmountDueSoon (asOfDay : ℤ) (tau : ℚ) (ls : List Liability) : ℚ :=
  (debtUpcoming asOfDay tau ls).foldl (fun sum l => sum + dueSoonAmount l) 0

/-! ## Export and import (Settings) -/

/-- The parsed JSON shape of a backup payload. Every domain collection is
optional because the payload is dynamic data read from a file; export always
populates every field. In the source an accepted payload is stored wholesale,
so collections that are absent yet not validated would simply be missing from
the stored state; the defaults taken in farmOfBackup are exercised by no
claim, since imports are either full exports or rejected. -/
structure Backup where
  version : String
  timestamp : String
  user : User
  transactions : Option (List Transaction)
  categories : Option (List Category)
  accounts : Option (List Account)
  animalSpecies : Option (List AnimalSpecies)
  animalLogs : Option (List AnimalLog)
  inventoryItems : Option (List InventoryItem)
  inventoryMovements : Option (List InventoryMovement)
  assets : Option (List Asset)
  liabilities : Option (List Liability)
  sidebarConfig : Option (List NavItemConfig)
  isSidebarCollapsed : Option Bool
deriving DecidableEq, Repr

/-- Settings handleExport: serialize the complete snapshot together with the
format version tag, a timestamp and the user identity. -/
def handleExport (version timestamp : String) (u : User) (s : FarmData) : Backup :=
  { version := version, timestamp := timestamp, user := u,
    transactions := some s.transactions, categories := some s.categories,
    accounts := some s.accounts, animalSpecies := some s.animalSpecies,
    animalLogs := some s.animalLogs, inventoryItems := some s.inventoryItems,
    inventoryMovements := some s.inventoryMovements, assets := some s.assets,
    liabilities := some s.liabilities, sidebarConfig := some s.sidebarConfig,
    isSidebarCollapsed := some s.isSidebarCollapsed }

/-- The snapshot a backup payload stands for once accepted. -/
def farmOfBackup (b : Backup) : FarmData :=
  { transactions := b.transactions.getD [], categories := b.categories.getD [],
    accounts := b.accounts.getD [], animalSpecies := b.animalSpecies.getD [],
    animalLogs := b.animalLogs.getD [], inventoryItems := b.inventoryItems.getD [],
    inventoryMovements := b.inventoryMovements.getD [], assets := b.assets.getD [],
    liabilities := b.liabilities.getD [], sidebarConfig := b.sidebarConfig.getD [],
    isSidebarCollapsed := b.isSidebarCollapsed.getD false }

/-- Settings handleImport acting on the current snapshot: a payload missing
the transactions collection or the categories collection throws before
onImportData is ever called, so the current snapshot is returned untouched
together with the surfaced error message; otherwise the payload replaces
local state wholesale and no error is surfaced. (The confirmation prompt on
the accept path is a UI gate, modelled as confirmed.) -/
def handleImport (cur : FarmData) (b : Backup) : FarmData × Option String :=
  if b.transactions.isNone || b.categories.isNone then
    (cur, some "Invalid backup file format.")
  else
    (farmOfBackup b, none)

/-! ## Sync coordinator

The debounced push effect of the App component, as an explicit state
machine. The state holds the pending timer, a deadline paired with the
snapshot captured when it was armed, and the list of pushes that have fired.
Every mutation clears any still-pending timer and arms a fresh one two
seconds out carrying the new snapshot; the passage of quiet time delivers an
elapsed timer; logout clears the timer without delivering it. Events are
processed in time order, and a timer whose deadline has been reached by the
time of the next event is delivered first, exactly as the host timer would
have fired it. -/

structure SyncState where
  pending : Option (ℚ × FarmData)
  pushes : List FarmData
deriving DecidableEq, Repr

/-- The sync coordinator events: a local mutation producing a snapshot, quiet
passage of time up to an instant, and logout. Each carries its instant. -/
inductive SyncEvent where
  | mutate : ℚ → FarmData → SyncEvent
  | quiesce : ℚ → SyncEvent
  | logout : ℚ → SyncEvent
deriving DecidableEq, Repr

/-- Deliver the pending timer if its deadline has been reached at instant t. -/
def fireDue (t : ℚ) (st : SyncState) : SyncState :=
  match st.pending with
  | some p => if p.1 ≤ t then { pending := none, pushes := st.pushes ++ [p.2] } else st
  | none => st

/-- One step of the sync coordinator. A mutation at instant t cancels the
pending timer (after delivering it when already elapsed) and arms a new one
at t + 2 carrying the new snapshot; logout cancels outright. -/
def syncStep (st : SyncState) : SyncEvent → SyncState
  | SyncEvent.mutate t s => { fireDue t st with pending := some (t + 2, s) }
  | SyncEvent.quiesce t => fireDue t st
  | SyncEvent.logout t => { fireDue t st with pending := none }

/-- Run the sync coordinator over a sequence of events. -/
def syncRun (st : SyncState) (es : List SyncEvent) : SyncState :=
  es.foldl syncStep st

/-- The initial coordinator state: no pending timer, nothing pushed. -/
def initSync : SyncState := { pending := none, pushes := [] }

/-- Mutation events from timed snapshots. -/
def mutEvents (ms : List (ℚ × FarmData)) : List SyncEvent :=
  ms.map (fun p => SyncEvent.mutate p.1 p.2)

/-- The timed mutations all fall inside the quiescence window of their
predecessor: each instant is at or after the previous one and strictly
before the previous one plus two seconds. -/
def withinWindow : ℚ → List (ℚ × FarmData) → Prop
  | _, [] => True
  | prev, (t, _) :: rest => prev ≤ t ∧ t < prev + 2 ∧ withinWindow t rest

/-- The last timed mutation of a nonempty sequence, given as head plus rest. -/
def lastMut : ℚ × FarmData → List (ℚ × FarmData) → ℚ × FarmData
  | p, [] => p
  | _, q :: rest => lastMut q rest

/-! ## Helper lemmas -/

/-- Folding signed amounts equals the start value plus the sum of the signed
amounts. -/
lemma accountBalance_foldl (l : List Transaction) (b : ℚ) :
    l.foldl
        (fun b t => if t.type == TransactionType.INCOME then b + t.amount else b - t.amount) b
      = b + (l.map
          (fun t => if t.type == TransactionType.INCOME then t.amount else -t.amount)).sum := by
  induction l generalizing b with
  | nil => simp
  | cons t rest ih =>
    simp only [List.foldl_cons, List.map_cons, List.sum_cons, ih]
    by_cases h : t.type == TransactionType.INCOME <;> simp [h] <;> ring

/-- The signed sum over the transactions of one account splits into the
income sum minus the expense sum. -/
lemma signedSum_split (acc : Account) (ts : List Transaction) :
    ((ts.filter (fun t => t.accountId == acc.id)).map
        (fun t => if t.type == TransactionType.INCOME then t.amount else -t.amount)).sum
      = ((ts.filter
            (fun t => t.accountId == acc.id && t.type == TransactionType.INCOME)).map
          (fun t => t.amount)).sum
        - ((ts.filter
              (fun t => t.accountId == acc.id && t.type == TransactionType.EXPENSE)).map
            (fun t => t.amount)).sum := by
  induction ts with
  | nil => simp
  | cons t rest ih =>
    simp only [List.filter_cons]
    by_cases ha : t.accountId == acc.id
    · simp only [beq_iff_eq] at ih
      cases htype : t.type <;> (simp [ha, htype]; rw [ih]; ring)
    · simpa [ha] using ih

/-- Folding an accumulating addition equals the sum of the mapped list. -/
lemma foldl_add_map (f : Liability → ℚ) (l : List Liability) (b : ℚ) :
    l.foldl (fun s x => s + f x) b = b + (l.map f).sum := by
  induction l generalizing b with
  | nil => simp
  | cons x rest ih =>
    simp only [List.foldl_cons, List.map_cons, List.sum_cons, ih]
    ring

/-- Processing a run of mutations that all fall inside the quiescence window
of their predecessor never fires the pending timer: the pushes are unchanged
and the pending timer carries the last mutation. -/
lemma syncRun_mutations (ms : List (ℚ × FarmData)) :
    ∀ (t0 : ℚ) (s0 : FarmData) (P : List FarmData),
      withinWindow t0 ms →
      syncRun { pending := some (t0 + 2, s0), pushes := P } (mutEvents ms)
        = { pending := some ((lastMut (t0, s0) ms).1 + 2, (lastMut (t0, s0) ms).2),
            pushes := P } := by
  induction ms with
  | nil => intro t0 s0 P _; rfl
  | cons q rest ih =>
    intro t0 s0 P hw
    obtain ⟨t, s⟩ := q
    obtain ⟨_, hlt, hrest⟩ := hw
    have hstep :
        syncStep { pending := some (t0 + 2, s0), pushes := P } (SyncEvent.mutate t s)
          = { pending := some (t + 2, s), pushes := P } := by
      simp only [syncStep, fireDue]
      rw [if_neg (by linarith)]
    show syncRun
        (syncStep { pending := some (t0 + 2, s0), pushes := P } (SyncEvent.mutate t s))
        (mutEvents rest) = _
    rw [hstep]
    exact ih t s P hrest

/-! ## Sample data used by witnesses and counterexamples -/

/-- The empty snapshot. -/
def emptyFarm : FarmData :=
  { transactions := [], categories := [], accounts := [], animalSpecies := [],
    animalLogs := [], inventoryItems := [], inventoryMovements := [], assets := [],
    liabilities := [], sidebarConfig := [], isSidebarCollapsed := false }

/-- A sample checking account. -/
def wAcc : Account :=
  { id := "a1", name := "Main", type := AccountType.CHECKING, initialBalance := 50 }

/-- A sample income transaction of 100 on account a1. -/
def wT1 : Transaction :=
  { id := "t1", date := "2026-01-02", description := "milk sale", amount := 100,
    categoryId := "c1", accountId := "a1", type := TransactionType.INCOME }

/-- A sample expense transaction of 20 on account a1. -/
def wT2 : Transaction :=
  { id := "t2", date := "2026-01-03", description := "feed", amount := 20,
    categoryId := "c2", accountId := "a1", type := TransactionType.EXPENSE }

/-- A sample expense transaction of 100 on account a1. -/
def wT3 : Transaction :=
  { id := "t3", date := "2026-01-04", description := "repairs", amount := 100,
    categoryId := "c2", accountId := "a1", type := TransactionType.EXPENSE }

/-- A sample liability with balance 100 and installment 25. -/
def wL : Liability :=
  { id := "L1", name := "Tractor loan", category := LiabilityCategory.LOAN,
    originalAmount := 500, currentBalance := 100, interestRate := 5,
    dueDate := some 30, installmentAmount := some 25,
    paymentFrequency := some PaymentFrequency.MONTHLY, description := "" }

/-- A snapshot holding just the sample liability. -/
def wFarm : FarmData := { emptyFarm with liabilities := [wL] }

/-- A liability with zero balance due tomorrow. -/
def wLzero : Liability :=
  { id := "L2", name := "Paid off", category := LiabilityCategory.LOAN,
    originalAmount := 200, currentBalance := 0, interestRate := 3,
    dueDate := some 1, installmentAmount := some 10,
    paymentFrequency := some PaymentFrequency.MONTHLY, description := "" }

/-- A liability with positive balance due on day 30. -/
def wL30 : Liability :=
  { id := "L3", name := "Supplier bill", category := LiabilityCategory.ACCOUNTS_PAYABLE,
    originalAmount := 80, currentBalance := 50, interestRate := 0,
    dueDate := some 30, installmentAmount := some 25,
    paymentFrequency := some PaymentFrequency.MONTHLY, description := "" }

/-- A liability with positive balance due on day 31. -/
def wL31 : Liability :=
  { id := "L4", name := "Vet bill", category := LiabilityCategory.OTHER,
    originalAmount := 60, currentBalance := 60, interestRate := 0,
    dueDate := some 31, installmentAmount := none,
    paymentFrequency := none, description := "" }

/-- The Cow species of the specification scenario, count 10. -/
def cow : AnimalSpecies :=
  { id := "s1", name := "Cow", tag := "CW", breed := "Angus", count := 10,
    estimatedValue := 500 }

/-- A snapshot holding just the Cow species. -/
def dCow : FarmData := { emptyFarm with animalSpecies := [cow] }

/-- The SOLD log of quantity 12 against the Cow species. -/
def logSold12 : AnimalLogInput :=
  { speciesId := "s1", date := "2026-03-01", type := PopulationChange.SOLD,
    quantity := 12, note := "", valueAtTime := 500 }

/-- A sample inventory item with stock 0. -/
def invItem : InventoryItem :=
  { id := "i1", name := "Seed bag", sku := "S1", description := "", quantity := 0,
    unitCost := 2, assetTerm := AssetTerm.SHORT_TERM }

/-- A snapshot holding just the sample inventory item. -/
def dInv : FarmData := { emptyFarm with inventoryItems := [invItem] }

/-- An IN movement of quantity 5 against item i1. -/
def mvIn5 : InventoryMovementInput :=
  { itemId := "i1", type := MovementType.IN, quantity := 5, note := "restock",
    date := "2026-04-01", unitCostAtTime := 0 }

/-- Snapshots distinguishing the three mutations of the debounce witness. -/
def wSnap1 : FarmData := { emptyFarm with isSidebarCollapsed := true }

/-- Second debounce-witness snapshot. -/
def wSnap2 : FarmData := { emptyFarm with transactions := [wT1] }

/-- Third debounce-witness snapshot. -/
def wSnap3 : FarmData := { emptyFarm with transactions := [wT1, wT2] }

/-- A backup payload whose transactions collection is missing. -/
def wBackupMissing : Backup :=
  { version := "1.3", timestamp := "2026-05-01T00:00:00.000Z",
    user := { name := "Ada", email := "ada@farm.example" },
    transactions := none, categories := some [], accounts := some [],
    animalSpecies := some [], animalLogs := some [], inventoryItems := some [],
    inventoryMovements := some [], assets := some [], liabilities := some [],
    sidebarConfig := some [], isSidebarCollapsed := some false }

/-! ## Claim theorems -/

/-- C4: for every account A and transaction list T, the derived balance
equals A.initialBalance plus the sum of INCOME amounts on A minus the sum of
EXPENSE amounts on A, and the balance is invariant under any permutation
of T. -/
theorem accountBalance_spec_and_perm (acc : Account) (ts ts2 : List Transaction)
    (hperm : ts.Perm ts2) :
    accountBalance acc ts = specAccountBalance acc ts
      ∧ accountBalance acc ts = accountBalance acc ts2 := by
  have key : ∀ l : List Transaction, accountBalance acc l = specAccountBalance acc l := by
    intro l
    unfold accountBalance specAccountBalance
    rw [accountBalance_foldl, signedSum_split, add_sub_assoc]
  refine ⟨key ts, ?_⟩
  rw [key ts, key ts2]
  unfold specAccountBalance
  rw [((hperm.filter _).map _).sum_eq, ((hperm.filter _).map _).sum_eq]

/-- Witness for C4 at concrete inputs: the account with initial balance 50,
one income of 100 and one expense of 20, in both orders. -/
theorem accountBalance_witness :
    (accountBalance wAcc [wT1, wT2] = specAccountBalance wAcc [wT1, wT2]
        ∧ accountBalance wAcc [wT1, wT2] = accountBalance wAcc [wT2, wT1])
      ∧ accountBalance wAcc [wT1, wT2] = 130 :=
  ⟨accountBalance_spec_and_perm wAcc [wT1, wT2] [wT2, wT1] (List.Perm.swap wT2 wT1 []),
   by
    have hne : TransactionType.EXPENSE = TransactionType.INCOME ↔ False := by
      constructor <;> intro h <;> cases h
    norm_num [accountBalance, wAcc, wT1, wT2, hne]⟩

/-- C5 (amended): the boundary cases of the summary metrics as the Dashboard
computes them. With no income and no expense the gross margin is 0, the
breakeven progress is 0 (not 100: the source takes the else branch of both
guards) and the gap is 0; with income 0 and expense 100 the margin is 0, the
breakeven progress is 0 and the gap is 100; with income 100 and expense 0
the margin is 100, the breakeven progress is 100 and the gap is 0. -/
theorem performanceMetrics_boundary :
    performanceMetrics [] = (0, 0, 0)
      ∧ performanceMetrics [wT3] = (0, 0, 100)
      ∧ performanceMetrics [wT1] = (100, 100, 0) := by
  have hne : TransactionType.EXPENSE = TransactionType.INCOME ↔ False := by
    constructor <;> intro h <;> cases h
  refine ⟨?_, ?_, ?_⟩ <;>
    norm_num [performanceMetrics, incomeExpenseSummary, grossMargin, breakevenProgress,
      gapToBreakeven, wT1, wT3, hne]

/-- C5 counterexample: the claim says breakeven progress is 100 when both
income and expense are 0, but the source computes 0 there. -/
theorem performanceMetrics_counterexample :
    incomeExpenseSummary [] = (0, 0) ∧ (performanceMetrics []).2.1 = 0
      ∧ (performanceMetrics []).2.1 ≠ 100 := by
  refine ⟨rfl, ?_, ?_⟩ <;>
    norm_num [performanceMetrics, incomeExpenseSummary, breakevenProgress]

/-- C8: importing an exported snapshot reproduces it exactly, whatever the
current snapshot, version tag, timestamp and user identity are, and no error
is surfaced. -/
theorem export_import_roundtrip (cur : FarmData) (v ts : String) (u : User) (s : FarmData) :
    handleImport cur (handleExport v ts u s) = (s, none) := rfl

/-- C9: a payload missing the transactions collection or the categories
collection is rejected before any mutation: the current snapshot is returned
unchanged and the user-facing message is surfaced. -/
theorem import_rejects_missing (cur : FarmData) (b : Backup)
    (h : b.transactions = none ∨ b.categories = none) :
    handleImport cur b = (cur, some "Invalid backup file format.") := by
  unfold handleImport
  rcases h with h | h <;> simp [h]

/-- Witness for C9: the concrete payload with no transactions collection is
rejected and the empty snapshot is left untouched. -/
theorem import_rejects_missing_witness :
    (wBackupMissing.transactions = none ∨ wBackupMissing.categories = none)
      ∧ handleImport emptyFarm wBackupMissing
          = (emptyFarm, some "Invalid backup file format.") :=
  ⟨Or.inl rfl, import_rejects_missing emptyFarm wBackupMissing (Or.inl rfl)⟩

/-- C10: a newly created species has count exactly 0 and a newly created
inventory item has quantity exactly 0, for every creation payload (the
payload types carry no count or quantity field, mirroring the Omit types of
the source interfaces); consequently any member of the new collection that
was not already present has count (respectively quantity) 0. -/
theorem creation_defaults_zero (d : FarmData) (s : AnimalSpeciesInput)
    (i : InventoryItemInput) (uid1 uid2 : String) :
    (onAddSpecies d s uid1).animalSpecies
        = d.animalSpecies ++
          [{ id := uid1, name := s.name, tag := s.tag, breed := s.breed, count := 0,
             estimatedValue := s.estimatedValue }]
      ∧ (onAddItem d i uid2).inventoryItems
          = d.inventoryItems ++
            [{ id := uid2, name := i.name, sku := i.sku, description := i.description,
               quantity := 0, unitCost := i.unitCost, assetTerm := i.assetTerm }]
      ∧ (∀ sp ∈ (onAddSpecies d s uid1).animalSpecies,
          sp ∉ d.animalSpecies → sp.count = 0)
      ∧ (∀ it ∈ (onAddItem d i uid2).inventoryItems,
          it ∉ d.inventoryItems → it.quantity = 0) := by
  refine ⟨rfl, rfl, ?_, ?_⟩
  · intro sp hsp hnew
    rcases List.mem_append.mp hsp with h | h
    · exact absurd h hnew
    · rcases List.mem_singleton.mp h with rfl
      rfl
  · intro it hit hnew
    rcases List.mem_append.mp hit with h | h
    · exact absurd h hnew
    · rcases List.mem_singleton.mp h with rfl
      rfl

/-- Witness for C10 at concrete inputs: adding a species and an item to the
empty snapshot yields records with count 0 and quantity 0. -/
theorem creation_defaults_zero_witness :
    (onAddSpecies emptyFarm
        { name := "Goat", tag := "G", breed := "Boer", estimatedValue := 150 }
        "s9").animalSpecies
      = [{ id := "s9", name := "Goat", tag := "G", breed := "Boer", count := 0,
           estimatedValue := 150 }]
    ∧ (onAddItem emptyFarm
        { name := "Fence wire", sku := "F1", description := "", unitCost := 9,
          assetTerm := AssetTerm.LONG_TERM } "i9").inventoryItems
      = [{ id := "i9", name := "Fence wire", sku := "F1", description := "",
           quantity := 0, unitCost := 9, assetTerm := AssetTerm.LONG_TERM }] :=
  ⟨(creation_defaults_zero emptyFarm
      { name := "Goat", tag := "G", breed := "Boer", estimatedValue := 150 }
      { name := "Fence wire", sku := "F1", description := "", unitCost := 9,
        assetTerm := AssetTerm.LONG_TERM } "s9" "i9").1,
   (creation_defaults_zero emptyFarm
      { name := "Goat", tag := "G", breed := "Boer", estimatedValue := 150 }
      { name := "Fence wire", sku := "F1", description := "", unitCost := 9,
        assetTerm := AssetTerm.LONG_TERM } "s9" "i9").2.1⟩

/-- C1 (amended): recording a payment is atomic, both effects land in the
one returned snapshot. For every payment the liability balance becomes
max 0 (balance - amount), a decrease of exactly min amount balance, and the
synthesized EXPENSE transaction is appended with the payment date, the
description "Payment towards: " followed by the liability name and the
chosen category and account. The transaction carries the raw payment amount,
which equals the clamped amount min amount balance exactly when
amount is at most the balance, the bound the payment form enforces at entry;
this theorem states the claim under that bound. -/
theorem handleRecordPayment_atomic (d : FarmData) (L : Liability) (amount : ℚ)
    (pdate catId acctId uid : String) (hmem : L ∈ d.liabilities)
    (hle : amount ≤ L.currentBalance) :
    { L with currentBalance := L.currentBalance - amount }
        ∈ (handleRecordPayment d L amount pdate catId acctId uid).liabilities
      ∧ L.currentBalance - (L.currentBalance - amount) = min amount L.currentBalance
      ∧ (handleRecordPayment d L amount pdate catId acctId uid).transactions
          = d.transactions ++ [paymentTransaction L amount pdate catId acctId uid]
      ∧ (paymentTransaction L amount pdate catId acctId uid).amount
          = min amount L.currentBalance
      ∧ (paymentTransaction L amount pdate catId acctId uid).type = TransactionType.EXPENSE
      ∧ (paymentTransaction L amount pdate catId acctId uid).description
          = "Payment towards: " ++ L.name
      ∧ (paymentTransaction L amount pdate catId acctId uid).date = pdate
      ∧ (paymentTransaction L amount pdate catId acctId uid).categoryId = catId
      ∧ (paymentTransaction L amount pdate catId acctId uid).accountId = acctId := by
  have hmax : max 0 (L.currentBalance - amount) = L.currentBalance - amount :=
    max_eq_right (sub_nonneg.mpr hle)
  have hmin : min amount L.currentBalance = amount := min_eq_left hle
  refine ⟨?_, ?_, rfl, hmin.symm, rfl, rfl, rfl, rfl, rfl⟩
  · exact List.mem_map.mpr ⟨L, hmem, by simp [hmax]⟩
  · rw [hmin]; ring

/-- Witness for C1 at concrete inputs: paying 40 against the liability with
balance 100 leaves the balance at 60 and appends the synthesized expense. -/
theorem handleRecordPayment_witness :
    wL ∈ wFarm.liabilities ∧ (40 : ℚ) ≤ wL.currentBalance
      ∧ { wL with currentBalance := wL.currentBalance - 40 }
          ∈ (handleRecordPayment wFarm wL 40 "2026-02-01" "c2" "a1" "p1").liabilities
      ∧ (handleRecordPayment wFarm wL 40 "2026-02-01" "c2" "a1" "p1").transactions
          = [paymentTransaction wL 40 "2026-02-01" "c2" "a1" "p1"] := by
  have hmem : wL ∈ wFarm.liabilities := List.mem_singleton.mpr rfl
  have hle : (40 : ℚ) ≤ wL.currentBalance := by norm_num [wL]
  have h := handleRecordPayment_atomic wFarm wL 40 "2026-02-01" "c2" "a1" "p1" hmem hle
  exact ⟨hmem, hle, h.1, by simpa using h.2.2.1⟩

/-- C1 counterexample: paying 150 against a balance of 100 clamps the
balance at 0, a decrease of the clamped amount 100, yet the synthesized
transaction carries 150, so no transaction of the clamped amount exists and
the claim as stated fails for amounts above the balance. -/
theorem handleRecordPayment_counterexample :
    ((handleRecordPayment wFarm wL 150 "2026-02-01" "c2" "a1" "p2").liabilities.map
        (fun l => l.currentBalance)) = [0]
      ∧ ((handleRecordPayment wFarm wL 150 "2026-02-01" "c2" "a1" "p2").transactions.map
          (fun t => t.amount)) = [150]
      ∧ min (150 : ℚ) wL.currentBalance = 100
      ∧ (150 : ℚ) ≠ 100 := by
  have hmax : max 0 ((100 : ℚ) - 150) = 0 := max_eq_left (by norm_num)
  have hmin : min (150 : ℚ) (100 : ℚ) = 100 := min_eq_right (by norm_num)
  refine ⟨?_, ?_, ?_, by norm_num⟩
  · show List.map _ (List.map _ wFarm.liabilities) = _
    simp [wFarm, emptyFarm, wL, hmax]
  · show List.map _ (wFarm.transactions ++ [mkTransaction "p2" _]) = _
    simp [wFarm, emptyFarm, mkTransaction]
  · rw [show wL.currentBalance = (100 : ℚ) from rfl, hmin]

/-- C3: recording an animal log appends it to animalLogs even when the
speciesId resolves to no species (the species list is then unchanged and the
log is orphaned); when a species with that id exists its updated copy, with
count max 0 (count + quantity) for BOUGHT or BIRTH and
max 0 (count - quantity) for SOLD or DEATH, is in the new species list; and
starting from nonnegative counts every count stays nonnegative. -/
theorem handleRecordAnimalLog_spec (d : FarmData) (l : AnimalLogInput) (uid : String) :
    (handleRecordAnimalLog d l uid).animalLogs = d.animalLogs ++ [mkAnimalLog uid l]
      ∧ ((∀ s ∈ d.animalSpecies, s.id ≠ l.speciesId) →
          (handleRecordAnimalLog d l uid).animalSpecies = d.animalSpecies)
      ∧ (∀ s ∈ d.animalSpecies, s.id = l.speciesId →
          { s with count := max 0 (s.count +
              (if l.type = PopulationChange.BOUGHT ∨ l.type = PopulationChange.BIRTH
               then l.quantity else -l.quantity)) }
            ∈ (handleRecordAnimalLog d l uid).animalSpecies)
      ∧ ((∀ s ∈ d.animalSpecies, 0 ≤ s.count) →
          ∀ s2 ∈ (handleRecordAnimalLog d l uid).animalSpecies, 0 ≤ s2.count) := by
  have hch : (if (l.type == PopulationChange.BOUGHT || l.type == PopulationChange.BIRTH)
        then l.quantity else -l.quantity)
      = (if l.type = PopulationChange.BOUGHT ∨ l.type = PopulationChange.BIRTH
        then l.quantity else -l.quantity) := by
    cases l.type <;> simp
  refine ⟨rfl, ?_, ?_, ?_⟩
  · intro h
    have h2 : List.map (bumpSpecies l) d.animalSpecies = List.map id d.animalSpecies :=
      List.map_congr_left (fun s hs => by
        simp [bumpSpecies, beq_eq_false_iff_ne.mpr (h s hs)])
    show List.map (bumpSpecies l) d.animalSpecies = d.animalSpecies
    rw [h2, List.map_id]
  · intro s hs hid
    refine List.mem_map.mpr ⟨s, hs, ?_⟩
    simp [bumpSpecies, hid, hch]
  · intro h s2 hs2
    obtain ⟨s, hs, rfl⟩ := List.mem_map.mp hs2
    by_cases hid : s.id == l.speciesId
    · have hb : bumpSpecies l s
          = { s with count := max 0 (s.count +
              (if (l.type == PopulationChange.BOUGHT || l.type == PopulationChange.BIRTH)
               then l.quantity else -l.quantity)) } := by
        simp [bumpSpecies, hid]
      rw [hb]
      exact le_max_left _ _
    · have hb : bumpSpecies l s = s := by simp [bumpSpecies, hid]
      rw [hb]
      exact h s hs

/-- Witness for C3: the specification scenario, the Cow species with count
10 receiving a SOLD log of quantity 12 ends with count 0, and the log is
appended. -/
theorem handleRecordAnimalLog_witness :
    cow ∈ dCow.animalSpecies ∧ cow.id = logSold12.speciesId
      ∧ { cow with count := max 0 (cow.count +
            (if logSold12.type = PopulationChange.BOUGHT
                ∨ logSold12.type = PopulationChange.BIRTH
             then logSold12.quantity else -logSold12.quantity)) }
          ∈ (handleRecordAnimalLog dCow logSold12 "g1").animalSpecies
      ∧ { cow with count := 0 } ∈ (handleRecordAnimalLog dCow logSold12 "g1").animalSpecies
      ∧ (handleRecordAnimalLog dCow logSold12 "g1").animalLogs
          = [mkAnimalLog "g1" logSold12] := by
  have hmem : cow ∈ dCow.animalSpecies := List.mem_singleton.mpr rfl
  have hid : cow.id = logSold12.speciesId := rfl
  have h := handleRecordAnimalLog_spec dCow logSold12 "g1"
  have h3 := h.2.2.1 cow hmem hid
  refine ⟨hmem, hid, h3, ?_, by simpa using h.1⟩
  have hcount : max 0 (cow.count +
      (if logSold12.type = PopulationChange.BOUGHT
          ∨ logSold12.type = PopulationChange.BIRTH
       then logSold12.quantity else -logSold12.quantity)) = 0 := by
    have hnot : ¬(logSold12.type = PopulationChange.BOUGHT
        ∨ logSold12.type = PopulationChange.BIRTH) := by
      rintro (hc | hc) <;> simp [logSold12] at hc
    rw [if_neg hnot]
    exact max_eq_left (by norm_num [cow, logSold12])
  rw [← hcount]
  exact h3

/-- C2 (code bug evidence): recording an inventory movement never touches
the item collection, in general and at the concrete failing input. The
movement against item i1 (stock 0, movement IN of 5) is appended, stamped
with the item unit cost, yet the item quantity stays 0 where the
specification requires max 0 (0 + 5) = 5, the update the analogous animal
log handler performs for species counts. -/
theorem handleRecordMovement_no_quantity_update :
    (∀ (d : FarmData) (m : InventoryMovementInput) (uid : String),
        (handleRecordMovement d m uid).inventoryItems = d.inventoryItems
          ∧ (onRecordMovement d m uid).inventoryItems = d.inventoryItems)
      ∧ (handleRecordMovement dInv mvIn5 "m1").inventoryMovements
          = [mkMovement "m1" { mvIn5 with unitCostAtTime := invItem.unitCost }]
      ∧ (handleRecordMovement dInv mvIn5 "m1").inventoryItems.map (fun i => i.quantity)
          = [0]
      ∧ max 0 (invItem.quantity + mvIn5.quantity) = 5 := by
  refine ⟨?_, ?_, ?_, ?_⟩
  · intro d m uid
    constructor
    · unfold handleRecordMovement
      cases d.inventoryItems.find? (fun i => i.id == m.itemId) <;> rfl
    · rfl
  · rfl
  · rfl
  · show max (0 : ℤ) (0 + 5) = 5
    rw [zero_add]
    exact max_eq_right (by norm_num)

/-- C6: the due-soon computation shared by the Dashboard debt summary and
the LiabilityManager stats. A liability with balance at most 0 is never
upcoming whatever its due date; one with positive balance due exactly 30
days after the as-of day is upcoming; one due 31 days after is not; and the
total due soon is the sum, over the upcoming liabilities, of the installment
amount capped by the balance when a positive installment amount exists and
the balance otherwise. tau is the time of day of the moment of computation,
in day units. -/
theorem debtSummary_dueSoon (asOfDay : ℤ) (tau : ℚ) (ls : List Liability)
    (h0 : 0 ≤ tau) (h1 : tau < 1) :
    (∀ l : Liability, l.currentBalance ≤ 0 → upcomingPred asOfDay tau l = false)
      ∧ (∀ l : Liability, 0 < l.currentBalance → l.dueDate = some (asOfDay + 30) →
          upcomingPred asOfDay tau l = true)
      ∧ (∀ l : Liability, l.dueDate = some (asOfDay + 31) →
          upcomingPred asOfDay tau l = false)
      ∧ totalAmountDueSoon asOfDay tau ls
          = ((debtUpcoming asOfDay tau ls).map dueSoonAmount).sum := by
  refine ⟨?_, ?_, ?_, ?_⟩
  · intro l h
    have hnot : ¬(0 < l.currentBalance) := not_lt.mpr h
    unfold upcomingPred
    cases l.dueDate <;> simp [hnot]
  · intro l hb hd
    unfold upcomingPred
    rw [hd]
    simp [hb]
    linarith
  · intro l hd
    unfold upcomingPred
    rw [hd]
    simp
    intro _
    linarith
  · unfold totalAmountDueSoon
    rw [foldl_add_map, zero_add]

/-- Witness for C6 at concrete inputs, as-of day 0 at midnight: the zero
balance liability due tomorrow is excluded, the one due on day 30 is
included, the one due on day 31 is excluded, and the due-soon total of the
three is the capped installment 25 of the day-30 liability alone. -/
theorem debtSummary_dueSoon_witness :
    (0 : ℚ) ≤ 0 ∧ (0 : ℚ) < 1
      ∧ upcomingPred 0 0 wLzero = false
      ∧ upcomingPred 0 0 wL30 = true
      ∧ upcomingPred 0 0 wL31 = false
      ∧ totalAmountDueSoon 0 0 [wLzero, wL30, wL31]
          = ((debtUpcoming 0 0 [wLzero, wL30, wL31]).map dueSoonAmount).sum
      ∧ totalAmountDueSoon 0 0 [wLzero, wL30, wL31] = 25 := by
  have h := debtSummary_dueSoon 0 0 [wLzero, wL30, wL31] le_rfl (by norm_num)
  have hz : upcomingPred 0 0 wLzero = false := h.1 wLzero (by norm_num [wLzero])
  have h30 : upcomingPred 0 0 wL30 = true :=
    h.2.1 wL30 (by norm_num [wL30]) (by simp [wL30])
  have h31 : upcomingPred 0 0 wL31 = false := h.2.2.1 wL31 (by simp [wL31])
  have hu : debtUpcoming 0 0 [wLzero, wL30, wL31] = [wL30] := by
    simp [debtUpcoming, hz, h30, h31]
  have h25 : min (25 : ℚ) 50 = 25 := min_eq_left (by norm_num)
  refine ⟨le_rfl, by norm_num, hz, h30, h31, h.2.2.2, ?_⟩
  rw [h.2.2.2, hu]
  simp [dueSoonAmount, wL30, h25]

/-- C7: starting idle, a run of mutations each arriving inside the
two-second quiescence window of its predecessor, followed by quiet time
reaching the last deadline, fires exactly one push, and it carries the
snapshot of the last mutation; a logout before the last deadline cancels
the scheduled push outright, leaving no pending timer and no push at all. -/
theorem debounce_coalesce_and_cancel (t0 : ℚ) (s0 : FarmData)
    (ms : List (ℚ × FarmData)) (tq tl : ℚ) (hwin : withinWindow t0 ms)
    (hq : (lastMut (t0, s0) ms).1 + 2 ≤ tq)
    (hl : tl < (lastMut (t0, s0) ms).1 + 2) :
    (syncRun initSync (mutEvents ((t0, s0) :: ms) ++ [SyncEvent.quiesce tq])).pushes
        = [(lastMut (t0, s0) ms).2]
      ∧ syncRun initSync (mutEvents ((t0, s0) :: ms) ++ [SyncEvent.logout tl])
          = { pending := none, pushes := [] } := by
  have hrun : syncRun initSync (mutEvents ((t0, s0) :: ms))
      = { pending := some ((lastMut (t0, s0) ms).1 + 2, (lastMut (t0, s0) ms).2),
          pushes := [] } := by
    show syncRun (syncStep initSync (SyncEvent.mutate t0 s0)) (mutEvents ms) = _
    have h1 : syncStep initSync (SyncEvent.mutate t0 s0)
        = { pending := some (t0 + 2, s0), pushes := [] } := rfl
    rw [h1]
    exact syncRun_mutations ms t0 s0 [] hwin
  have hsplit : ∀ e : SyncEvent,
      syncRun initSync (mutEvents ((t0, s0) :: ms) ++ [e])
        = syncStep (syncRun initSync (mutEvents ((t0, s0) :: ms))) e := by
    intro e
    unfold syncRun
    rw [List.foldl_append]
    rfl
  constructor
  · rw [hsplit, hrun]
    show (fireDue tq _).pushes = _
    simp [fireDue, hq]
  · rw [hsplit, hrun]
    have hnl : ¬ ((lastMut (t0, s0) ms).1 + 2 ≤ tl) := not_le.mpr hl
    simp [syncStep, fireDue, hnl]

/-- Witness for C7: three mutations at instants 0, 1 and 2, each within two
seconds of the previous one, followed by quiet time to instant 10 push
exactly the third snapshot once; with a logout at instant 3 instead, nothing
is ever pushed and no timer is left pending. -/
theorem debounce_coalesce_witness :
    (syncRun initSync (mutEvents [(0, wSnap1), (1, wSnap2), (2, wSnap3)]
        ++ [SyncEvent.quiesce 10])).pushes = [wSnap3]
      ∧ syncRun initSync (mutEvents [(0, wSnap1), (1, wSnap2), (2, wSnap3)]
          ++ [SyncEvent.logout 3]) = { pending := none, pushes := [] } := by
  have h := debounce_coalesce_and_cancel 0 wSnap1 [(1, wSnap2), (2, wSnap3)] 10 3
    (by norm_num [withinWindow]) (by norm_num [lastMut]) (by norm_num [lastMut])
  simpa [lastMut] using h
